import Mathlib

/-!
Shallow embedding of `src/retry-sync.ts` (assets-retry, synchronous retry
core): the failure handler (`errorHandler`), the success handler
(`loadHandler`) and the startup scan (`processExistingElements`), together
with the collector store and the retry ledger (`retryCache`).

Helper collaborators that live outside `src/` (`util.ts`, `url.ts`) are
modelled from the spec at their interface boundary, each marked
`Modelled from the spec:` in its doc comment.
-/

namespace AssetsRetry

/-- Per-domain bookkeeping record (the "collector"): retry counter plus the
append-only `succeeded` / `failed` URL lists. -/
structure Collector where
  retryTimes : Nat
  succeeded : List String
  failed : List String
deriving DecidableEq

def emptyCollector : Collector := ⟨0, [], []⟩

/-- Association-list lookup with string keys (first match wins, like a JS
object with unique keys). -/
def alookup {α : Type} : List (String × α) → String → Option α
  | [], _ => none
  | p :: ps, k => if p.1 = k then some p.2 else alookup ps k

/-- The resource kinds the handlers discriminate on
(`ScriptElementCtor` / `LinkElementCtor` / `ImageElementCtor`). -/
inductive TagKind
  | script
  | link
  | img
deriving DecidableEq

/-- A DOM element as the handlers observe it: its kind, its loadable URL
(`src` for scripts/images, `href` for links; `none` models a missing or
empty source), its `rel` attribute, the hooked and ignore marker
attributes, its stable hash identifier, and the image completion data used
by the startup scan. -/
structure Elem where
  kind : TagKind
  src : Option String
  rel : Option String
  hooked : Bool
  ignored : Bool
  elemId : String
  complete : Bool
  naturalWidth : Nat
  naturalHeight : Nat
deriving DecidableEq

/-- An event as delivered to a capture-phase handler: it may carry no
identifiable target (`event.target || event.srcElement` being null). -/
structure Event where
  target : Option Elem
deriving DecidableEq

/-- An in-memory stylesheet object: its `href` and its CSSOM rule list,
`none` when access to the rules is denied (cross-origin opacity),
`some n` when accessible with `n` rules. -/
structure StyleSheet where
  href : Option String
  rules : Option Nat
deriving DecidableEq

/-- The document environment: `doc.styleSheets` (`none` when the API is
unsupported) and the element lists the startup scan queries. -/
structure DocEnv where
  styleSheets : Option (List StyleSheet)
  scripts : List Elem
  links : List Elem
  images : List Elem

/-- Session-wide mutable state: the collector store (one record per
classified domain, lazily created) and the retry ledger `retryCache`. -/
structure SyncState where
  collectors : List (String × Collector)
  retryCache : List String
deriving DecidableEq

/-- Configuration: the Domain Map (origin domain to fallback domain; an
empty-string fallback is falsy, i.e. "no domain to switch") and
`maxRetryCount`. -/
structure Opts where
  domainMap : List (String × String)
  maxRetryCount : Nat

/-- Possible return values of the caller's `onRetry` hook: a string, the
`null` veto, or any other (non-string, non-null) value. -/
inductive RetryResult
  | str (s : String)
  | null
  | other
deriving DecidableEq

def OnRetry : Type := String → String → Collector → RetryResult

/-- A caller callback invocation recorded by a handler run: `onRetry` with
the candidate URL, the original URL and the collector snapshot passed to
it, `onSuccess` / `onFail` with the logical path. -/
inductive Call
  | retry (newUrl : String) (oldUrl : String) (c : Collector)
  | success (path : String)
  | fail (path : String)
deriving DecidableEq

/-- A DOM side effect performed by the failure handler: an in-place image
reload (fresh retry marker + new `src`), or a replace-element reload via
`loadNextScript` / `loadNextLink`. -/
inductive Action
  | setImageSrc (elemId : String) (url : String)
  | loadNextScript (elemId : String) (url : String)
  | loadNextLink (elemId : String) (url : String)
deriving DecidableEq

/-- Outcome of one handler invocation: the new state, the callback calls
and DOM actions in order, and whether the invocation ended by throwing the
`onRetry` configuration error. -/
structure HResult where
  state : SyncState
  calls : List Call
  actions : List Action
  threw : Bool
deriving DecidableEq

def mkNoop (st : SyncState) : HResult := ⟨st, [], [], false⟩

/-- Strip a literal character prefix, or fail. -/
def dropPrefixChars : List Char → List Char → Option (List Char)
  | [], rest => some rest
  | _ :: _, [] => none
  | a :: ps, b :: ss => if a = b then dropPrefixChars ps ss else none

/-- Modelled from the spec: the scheme portion a URL may carry before its
domain segment. -/
def dropScheme (url : List Char) : List Char :=
  match dropPrefixChars "https://".data url with
  | some r => r
  | none =>
    match dropPrefixChars "http://".data url with
    | some r => r
    | none =>
      match dropPrefixChars "//".data url with
      | some r => r
      | none => url

/-- The characters before the first slash. -/
def takeUntilSlash : List Char → List Char
  | [] => []
  | c :: cs => if c = '/' then [] else c :: takeUntilSlash cs

/-- The characters from the first slash on. -/
def dropUntilSlash : List Char → List Char
  | [] => []
  | c :: cs => if c = '/' then c :: cs else dropUntilSlash cs

/-- Modelled from the spec: the domain portion of a URL (the segment
between the scheme and the first slash). -/
def urlDomain (url : String) : String :=
  ⟨takeUntilSlash (dropScheme url.data)⟩

/-- Modelled from the spec: the logical path of a URL — the URL with its
domain portion stripped (first component of `splitUrl(url, domainMap)`). -/
def urlPath (url : String) : String :=
  ⟨dropUntilSlash (dropScheme url.data)⟩

/-- Modelled from the spec: the classification half of
`extractInfoFromUrl(url, domainMap)` — the URL's domain when it is a key
of the Domain Map, not classified otherwise. The collector half is the
lazy creation `ensureCollector` below: `currentDomain` and
`currentCollector` are null exactly together. -/
def classify (dm : List (String × String)) (url : String) : Option String :=
  if (alookup dm (urlDomain url)).isSome then some (urlDomain url) else none

/-- Modelled from the spec: the Collector Store's lazy creation on first
classification — referenced from `extractInfoFromUrl`. -/
def ensureCollector (cs : List (String × Collector)) (d : String) :
    List (String × Collector) :=
  if (alookup cs d).isSome then cs else cs ++ [(d, emptyCollector)]

/-- The collector a domain key denotes in the store (the fresh empty record
when not yet created). -/
def collectorView (cs : List (String × Collector)) (d : String) : Collector :=
  (alookup cs d).getD emptyCollector

/-- In-place mutation of the stored record for domain `d`. -/
def updateCollector : List (String × Collector) → String → (Collector → Collector) →
    List (String × Collector)
  | [], _, _ => []
  | p :: ps, d, f => (p.1, if p.1 = d then f p.2 else p.2) :: updateCollector ps d f

/-- `collector.retryTimes++; collector.failed.push(originalUrl)`. -/
def bumpCollector (c : Collector) (url : String) : Collector :=
  { c with retryTimes := c.retryTimes + 1, failed := c.failed ++ [url] }

/-- Replace the first occurrence of `pat` in `s` with `tgt`. -/
def replaceFirstChars (pat tgt : List Char) : List Char → List Char
  | [] => []
  | c :: cs =>
    match dropPrefixChars pat (c :: cs) with
    | some rest => tgt ++ rest
    | none => c :: replaceFirstChars pat tgt cs

/-- Modelled from the spec: `stringReplace(url, from, to)` replaces the
first literal occurrence only. -/
def stringReplace (s pat tgt : String) : String :=
  ⟨replaceFirstChars pat.data tgt.data s.data⟩

/-- Modelled from the spec: `getTargetUrl(element)` returns the element's
loadable source URL or null when it has none (a null target is handled at
the call sites). -/
def getTargetUrl (el : Elem) : Option String := el.src

/-- Modelled from the spec: `getCssRules(sheet)` returns the CSSOM rule
list, or null when access to it fails — also when the sheet itself was not
found (the property access throws and is caught). -/
def getCssRules (sheet : Option StyleSheet) : Option Nat :=
  sheet.bind StyleSheet.rules

/-- Body of `errorHandler` from line 73 on, after the target, URL,
classification, ignore-marker and link-relation guards have passed;
`st` already holds the lazily created collector for `d`. -/
def errorHandlerCore (opts : Opts) (onRetry : OnRetry) (el : Elem)
    (url d : String) (st : SyncState) : HResult :=
  let col := bumpCollector (collectorView st.collectors d) url
  let st1 : SyncState :=
    { st with collectors := updateCollector st.collectors d (fun c => bumpCollector c url) }
  let failCalls := if opts.maxRetryCount < col.retryTimes then [Call.fail (urlPath url)] else []
  if (alookup opts.domainMap d).getD "" = "" ∨ opts.maxRetryCount < col.retryTimes then
    ⟨st1, failCalls, [], false⟩
  else
    let newUrl := stringReplace url d ((alookup opts.domainMap d).getD "")
    let calls := failCalls ++ [Call.retry newUrl url col]
    match onRetry newUrl url col with
    | RetryResult.null => ⟨st1, calls, [], false⟩
    | RetryResult.other => ⟨st1, calls, [], true⟩
    | RetryResult.str u =>
      if el.kind = TagKind.img ∧ el.src.isSome then
        ⟨st1, calls, [Action.setImageSrc el.elemId u], false⟩
      else if el.elemId ∈ st1.retryCache then
        ⟨st1, calls, [], false⟩
      else
        let st2 : SyncState := { st1 with retryCache := st1.retryCache ++ [el.elemId] }
        if el.kind = TagKind.script ∧ el.hooked = false ∧ el.src.isSome then
          ⟨st2, calls, [Action.loadNextScript el.elemId u], false⟩
        else if el.kind = TagKind.link ∧ el.hooked = false ∧ el.src.isSome then
          ⟨st2, calls, [Action.loadNextLink el.elemId u], false⟩
        else
          ⟨st2, calls, [], false⟩

/-- The capture-phase failure handler (`errorHandler`, lines 54-123). -/
def errorHandler (opts : Opts) (onRetry : OnRetry) (ev : Option Event)
    (st : SyncState) : HResult :=
  match ev with
  | none => mkNoop st
  | some event =>
    match event.target with
    | none => mkNoop st
    | some el =>
      match getTargetUrl el with
      | none => mkNoop st
      | some originalUrl =>
        match classify opts.domainMap originalUrl with
        | none => mkNoop st
        | some d =>
          let st1 : SyncState := { st with collectors := ensureCollector st.collectors d }
          if el.ignored = true then mkNoop st1
          else if el.kind = TagKind.link ∧ el.rel ≠ some "stylesheet" then mkNoop st1
          else errorHandlerCore opts onRetry el originalUrl d st1

/-- `callOnSuccess` helper of `loadHandler`: push onto `succeeded` when a
collector exists, then invoke `onSuccess` with the logical path
unconditionally. -/
def pushSucceeded (st : SyncState) (dOpt : Option String) (url : String) : SyncState :=
  match dOpt with
  | some d =>
    let cs := updateCollector st.collectors d (fun c => { c with succeeded := c.succeeded ++ [url] })
    { st with collectors := cs }
  | none => st

/-- The capture-phase success handler (`loadHandler`, lines 130-172). -/
def loadHandler (opts : Opts) (onRetry : OnRetry) (dom : DocEnv)
    (ev : Option Event) (st : SyncState) : HResult :=
  match ev with
  | none => mkNoop st
  | some event =>
    match event.target with
    | none => mkNoop st
    | some el =>
      match getTargetUrl el with
      | none => mkNoop st
      | some originalUrl =>
        let dOpt := classify opts.domainMap originalUrl
        let st1 : SyncState :=
          match dOpt with
          | some d => { st with collectors := ensureCollector st.collectors d }
          | none => st
        if el.kind ≠ TagKind.link then
          ⟨pushSucceeded st1 dOpt originalUrl, [Call.success (urlPath originalUrl)], [], false⟩
        else
          match dom.styleSheets with
          | none => mkNoop st1
          | some sheets =>
            match getCssRules ((sheets.filter (fun s => s.href == el.src)).head?) with
            | none => mkNoop st1
            | some 0 => errorHandler opts onRetry ev st1
            | some (_ + 1) =>
              ⟨pushSucceeded st1 dOpt originalUrl, [Call.success (urlPath originalUrl)], [], false⟩

/-- Sequence one handler result with a continuation, aborting when the
first invocation threw (a thrown error unwinds the rest of the scan). -/
def thenRun (r : HResult) (k : SyncState → HResult) : HResult :=
  if r.threw then r
  else
    let rest := k r.state
    ⟨rest.state, r.calls ++ rest.calls, r.actions ++ rest.actions, rest.threw⟩

/-- Run a per-element step over a list of elements (a `forEach` loop),
aborting on a thrown error. -/
def runSteps (step : Elem → SyncState → HResult) : List Elem → SyncState → HResult
  | [], st => mkNoop st
  | e :: es, st => thenRun (step e st) (fun st1 => runSteps step es st1)

/-- Script branch of `processExistingElements` (lines 185-194): classified
scripts are optimistically recorded as succeeded; no callback fires. -/
def scanScriptStep (opts : Opts) (el : Elem) (st : SyncState) : HResult :=
  match getTargetUrl el with
  | none => mkNoop st
  | some url =>
    match classify opts.domainMap url with
    | none => mkNoop st
    | some d =>
      let st1 : SyncState := { st with collectors := ensureCollector st.collectors d }
      mkNoop (pushSucceeded st1 (some d) url)

/-- Stylesheet branch of `processExistingElements` (lines 197-227). -/
def scanLinkStep (opts : Opts) (onRetry : OnRetry) (dom : DocEnv) (el : Elem)
    (st : SyncState) : HResult :=
  match getTargetUrl el with
  | none => mkNoop st
  | some url =>
    if el.rel ≠ some "stylesheet" then mkNoop st
    else
      match classify opts.domainMap url with
      | none => mkNoop st
      | some d =>
        let st1 : SyncState := { st with collectors := ensureCollector st.collectors d }
        if el.ignored = true then mkNoop st1
        else
          match dom.styleSheets with
          | none => mkNoop st1
          | some sheets =>
            match sheets.find? (fun s => s.href == el.src) with
            | some sheet =>
              match sheet.rules with
              | none => errorHandler opts onRetry (some ⟨some el⟩) st1
              | some 0 => errorHandler opts onRetry (some ⟨some el⟩) st1
              | some (_ + 1) => mkNoop (pushSucceeded st1 (some d) url)
            | none => errorHandler opts onRetry (some ⟨some el⟩) st1

/-- Image branch of `processExistingElements` (lines 230-249). -/
def scanImageStep (opts : Opts) (onRetry : OnRetry) (el : Elem)
    (st : SyncState) : HResult :=
  match getTargetUrl el with
  | none => mkNoop st
  | some url =>
    match classify opts.domainMap url with
    | none => mkNoop st
    | some d =>
      let st1 : SyncState := { st with collectors := ensureCollector st.collectors d }
      if el.ignored = true then mkNoop st1
      else if el.complete = true ∧ (el.naturalWidth = 0 ∨ el.naturalHeight = 0) then
        errorHandler opts onRetry (some ⟨some el⟩) st1
      else if el.complete = true then mkNoop (pushSucceeded st1 (some d) url)
      else mkNoop st1

/-- The startup reconciliation scan (`processExistingElements`,
lines 179-250): scripts, then stylesheet links, then images. -/
def processExistingElements (opts : Opts) (onRetry : OnRetry) (dom : DocEnv)
    (st : SyncState) : HResult :=
  thenRun (runSteps (scanScriptStep opts) dom.scripts st) (fun st1 =>
    thenRun (runSteps (scanLinkStep opts onRetry dom) dom.links st1) (fun st2 =>
      runSteps (scanImageStep opts onRetry) dom.images st2))

/-- Run a sequence of failure notifications through `errorHandler`; a
thrown error aborts only its own invocation (the environment keeps
delivering later events), so effects are concatenated. -/
def runErrors (opts : Opts) (onRetry : OnRetry) :
    List (Option Event) → SyncState → HResult
  | [], st => mkNoop st
  | e :: es, st =>
    let r := errorHandler opts onRetry e st
    let rest := runErrors opts onRetry es r.state
    ⟨rest.state, r.calls ++ rest.calls, r.actions ++ rest.actions, r.threw || rest.threw⟩

/-- Number of replace-element reloads (`loadNextScript` / `loadNextLink`)
performed for the element with the given ledger identifier. -/
def loadNextCount (id : String) : List Action → Nat
  | [] => 0
  | Action.loadNextScript i _ :: rest => (if i = id then 1 else 0) + loadNextCount id rest
  | Action.loadNextLink i _ :: rest => (if i = id then 1 else 0) + loadNextCount id rest
  | Action.setImageSrc _ _ :: rest => loadNextCount id rest

def isSuccessCall : Call → Bool
  | Call.success _ => true
  | _ => false

/-- The URL a DOM action loads. -/
def actionUrl : Action → String
  | Action.setImageSrc _ u => u
  | Action.loadNextScript _ u => u
  | Action.loadNextLink _ u => u

/-- A handler invocation left the session unobserved: every collector's
content is unchanged, the retry ledger is unchanged, no callback was
invoked, no DOM action was performed and nothing was thrown. (Lazily
creating a fresh empty collector record is not an observable change.) -/
def Unobserved (st : SyncState) (r : HResult) : Prop :=
  (∀ x, collectorView r.state.collectors x = collectorView st.collectors x)
    ∧ r.state.retryCache = st.retryCache
    ∧ r.calls = [] ∧ r.actions = [] ∧ r.threw = false

/-! ### Concrete fixtures used by the witnesses and counterexamples -/

def demoOpts : Opts := ⟨[("a.com", "b.com")], 1⟩

def demoOptsNoFb : Opts := ⟨[("a.com", "")], 1⟩

def retryIdHook : OnRetry := fun newUrl _ _ => RetryResult.str newUrl

def retryNullHook : OnRetry := fun _ _ _ => RetryResult.null

def retryBadHook : OnRetry := fun _ _ _ => RetryResult.other

def demoScript : Elem :=
  ⟨TagKind.script, some "http://a.com/x.js", none, false, false, "e1", false, 0, 0⟩

def demoScriptIgnored : Elem :=
  ⟨TagKind.script, some "http://a.com/x.js", none, false, true, "e2", false, 0, 0⟩

def demoScriptOther : Elem :=
  ⟨TagKind.script, some "http://c.com/x.js", none, false, false, "e3", false, 0, 0⟩

def demoImg : Elem :=
  ⟨TagKind.img, some "http://a.com/i.png", none, false, false, "e4", true, 0, 0⟩

def demoLink : Elem :=
  ⟨TagKind.link, some "http://a.com/s.css", some "stylesheet", false, false, "e5", false, 0, 0⟩

def demoLinkIcon : Elem :=
  ⟨TagKind.link, some "http://a.com/f.ico", some "icon", false, false, "e6", false, 0, 0⟩

def demoState : SyncState := ⟨[], []⟩

def evOf (el : Elem) : Option Event := some ⟨some el⟩

def demoDocEmptyRules : DocEnv := ⟨some [⟨some "http://a.com/s.css", some 0⟩], [], [], []⟩

def demoDocNullRules : DocEnv := ⟨some [⟨some "http://a.com/s.css", none⟩], [], [], []⟩

def demoDocWithRules : DocEnv := ⟨some [⟨some "http://a.com/s.css", some 3⟩], [], [], []⟩

def demoDocNoSheets : DocEnv := ⟨some [], [], [], []⟩

/-! ### Store lemmas -/

theorem alookup_append_right {α : Type} (xs ys : List (String × α)) (k : String)
    (h : alookup xs k = none) : alookup (xs ++ ys) k = alookup ys k := by
  induction xs with
  | nil => rfl
  | cons p ps ih =>
    by_cases hp : p.1 = k
    · simp [alookup, hp] at h
    · simp only [alookup, hp, if_false, List.cons_append] at h ⊢
      exact ih h

theorem alookup_append_left {α : Type} (xs ys : List (String × α)) (k : String)
    (v : α) (h : alookup xs k = some v) : alookup (xs ++ ys) k = some v := by
  induction xs with
  | nil => exact Option.noConfusion h
  | cons p ps ih =>
    by_cases hp : p.1 = k
    · simp only [alookup, hp, if_true] at h ⊢
      simpa using h
    · simp only [alookup, hp, if_false, List.cons_append] at h ⊢
      exact ih h

theorem alookup_ensure_self (cs : List (String × Collector)) (d : String) :
    alookup (ensureCollector cs d) d = some (collectorView cs d) := by
  unfold ensureCollector collectorView
  cases h : alookup cs d with
  | none =>
    simp only [h, Option.isSome_none, Bool.false_eq_true, if_false, Option.getD_none]
    rw [alookup_append_right _ _ _ h]
    simp [alookup]
  | some c =>
    simp [h]

theorem alookup_ensure_ne (cs : List (String × Collector)) (d x : String)
    (hx : x ≠ d) : alookup (ensureCollector cs d) x = alookup cs x := by
  unfold ensureCollector
  split
  · rfl
  · cases h : alookup cs x with
    | none =>
      rw [alookup_append_right _ _ _ h]
      simp only [alookup]
      rw [if_neg (fun hdx : d = x => hx hdx.symm)]
    | some v => exact alookup_append_left _ _ _ _ h

theorem collectorView_ensure (cs : List (String × Collector)) (d x : String) :
    collectorView (ensureCollector cs d) x = collectorView cs x := by
  by_cases hx : x = d
  · subst hx
    unfold collectorView
    rw [alookup_ensure_self]
    rfl
  · unfold collectorView
    rw [alookup_ensure_ne _ _ _ hx]

theorem alookup_update_self (cs : List (String × Collector)) (d : String)
    (f : Collector → Collector) :
    alookup (updateCollector cs d f) d = (alookup cs d).map f := by
  induction cs with
  | nil => rfl
  | cons p ps ih =>
    simp only [updateCollector, alookup]
    by_cases hp : p.1 = d
    · simp [hp]
    · simp only [hp, if_false]
      exact ih

theorem alookup_update_ne (cs : List (String × Collector)) (d : String)
    (f : Collector → Collector) (x : String) (hx : x ≠ d) :
    alookup (updateCollector cs d f) x = alookup cs x := by
  induction cs with
  | nil => rfl
  | cons p ps ih =>
    simp only [updateCollector, alookup]
    by_cases hpx : p.1 = x
    · have hpd : ¬ p.1 = d := fun h => hx ((hpx.symm.trans h) ▸ rfl)
      simp [hpx, hpd, hx]
    · simp only [hpx, if_false]
      exact ih

theorem collectorView_update_self (cs : List (String × Collector)) (d : String)
    (f : Collector → Collector) (c : Collector) (h : alookup cs d = some c) :
    collectorView (updateCollector cs d f) d = f c := by
  unfold collectorView
  rw [alookup_update_self, h]
  rfl

theorem collectorView_update_ne (cs : List (String × Collector)) (d : String)
    (f : Collector → Collector) (x : String) (hx : x ≠ d) :
    collectorView (updateCollector cs d f) x = collectorView cs x := by
  unfold collectorView
  rw [alookup_update_ne _ _ _ _ hx]

theorem collectorView_update_ensure (cs : List (String × Collector)) (d : String)
    (f : Collector → Collector) :
    collectorView (updateCollector (ensureCollector cs d) d f) d
      = f (collectorView cs d) :=
  collectorView_update_self _ _ _ _ (alookup_ensure_self cs d)

theorem collectorView_update_failed (cs : List (String × Collector)) (d : String)
    (f : Collector → Collector) (hf : ∀ c, (f c).failed = c.failed) (x : String) :
    (collectorView (updateCollector cs d f) x).failed = (collectorView cs x).failed := by
  by_cases hx : x = d
  · subst hx
    unfold collectorView
    rw [alookup_update_self]
    cases alookup cs x with
    | none => rfl
    | some c => simpa using hf c
  · rw [collectorView_update_ne _ _ _ _ hx]

/-- Reduce `errorHandler` on an in-scope event to its post-guard body. -/
theorem errorHandler_inScope (opts : Opts) (onRetry : OnRetry) (el : Elem)
    (url d : String) (st : SyncState)
    (hsrc : el.src = some url) (hcls : classify opts.domainMap url = some d)
    (hig : el.ignored = false)
    (hrel : ¬(el.kind = TagKind.link ∧ el.rel ≠ some "stylesheet")) :
    errorHandler opts onRetry (some ⟨some el⟩) st =
      errorHandlerCore opts onRetry el url d ⟨ensureCollector st.collectors d, st.retryCache⟩ := by
  simp [errorHandler, getTargetUrl, hsrc, hcls, hig, hrel]

/-! ### `errorHandlerCore` branch-independent facts -/

theorem core_state_collectors (opts : Opts) (onRetry : OnRetry) (el : Elem)
    (url d : String) (st : SyncState) :
    (errorHandlerCore opts onRetry el url d st).state.collectors
      = updateCollector st.collectors d (fun c => bumpCollector c url) := by
  simp only [errorHandlerCore]
  repeat (first | rfl | split)

theorem core_cache (opts : Opts) (onRetry : OnRetry) (el : Elem)
    (url d : String) (st : SyncState) :
    (errorHandlerCore opts onRetry el url d st).state.retryCache = st.retryCache
      ∨ (el.elemId ∉ st.retryCache
          ∧ (errorHandlerCore opts onRetry el url d st).state.retryCache
              = st.retryCache ++ [el.elemId]) := by
  simp only [errorHandlerCore]
  repeat (first | exact Or.inl rfl | exact Or.inr ⟨by assumption, rfl⟩ | split)

theorem core_fail_mem (opts : Opts) (onRetry : OnRetry) (el : Elem)
    (url d : String) (st : SyncState) :
    (Call.fail (urlPath url) ∈ (errorHandlerCore opts onRetry el url d st).calls
      ↔ opts.maxRetryCount < (collectorView st.collectors d).retryTimes + 1) := by
  simp only [errorHandlerCore, bumpCollector]
  repeat' split
  all_goals simp_all

theorem core_stop (opts : Opts) (onRetry : OnRetry) (el : Elem) (url d : String)
    (st : SyncState)
    (h : (alookup opts.domainMap d).getD "" = ""
        ∨ opts.maxRetryCount < (collectorView st.collectors d).retryTimes + 1) :
    (errorHandlerCore opts onRetry el url d st).actions = []
      ∧ (errorHandlerCore opts onRetry el url d st).threw = false
      ∧ (errorHandlerCore opts onRetry el url d st).state.retryCache = st.retryCache := by
  simp only [errorHandlerCore, bumpCollector]
  repeat' split
  all_goals simp_all

theorem core_calls_hook (opts : Opts) (onRetry : OnRetry) (el : Elem) (url d : String)
    (st : SyncState) (F : String)
    (hfb : alookup opts.domainMap d = some F) (hFne : ¬ F = "")
    (hnf : ¬ opts.maxRetryCount < (collectorView st.collectors d).retryTimes + 1) :
    (errorHandlerCore opts onRetry el url d st).calls
      = [Call.retry (stringReplace url d F) url
          (bumpCollector (collectorView st.collectors d) url)] := by
  simp only [errorHandlerCore, bumpCollector, hfb, Option.getD_some]
  repeat' split
  all_goals try simp_all
  all_goals omega

theorem core_hook_null (opts : Opts) (onRetry : OnRetry) (el : Elem) (url d : String)
    (st : SyncState) (F : String)
    (hfb : alookup opts.domainMap d = some F) (hFne : ¬ F = "")
    (hnf : ¬ opts.maxRetryCount < (collectorView st.collectors d).retryTimes + 1)
    (hr : onRetry (stringReplace url d F) url
        (bumpCollector (collectorView st.collectors d) url) = RetryResult.null) :
    (errorHandlerCore opts onRetry el url d st).actions = []
      ∧ (errorHandlerCore opts onRetry el url d st).threw = false := by
  simp only [errorHandlerCore, bumpCollector, hfb, Option.getD_some]
  simp only [bumpCollector] at hr
  repeat' split
  all_goals try simp_all
  all_goals omega

theorem core_hook_other (opts : Opts) (onRetry : OnRetry) (el : Elem) (url d : String)
    (st : SyncState) (F : String)
    (hfb : alookup opts.domainMap d = some F) (hFne : ¬ F = "")
    (hnf : ¬ opts.maxRetryCount < (collectorView st.collectors d).retryTimes + 1)
    (hr : onRetry (stringReplace url d F) url
        (bumpCollector (collectorView st.collectors d) url) = RetryResult.other) :
    (errorHandlerCore opts onRetry el url d st).actions = []
      ∧ (errorHandlerCore opts onRetry el url d st).threw = true := by
  simp only [errorHandlerCore, bumpCollector, hfb, Option.getD_some]
  simp only [bumpCollector] at hr
  repeat' split
  all_goals try simp_all
  all_goals omega

theorem core_hook_str (opts : Opts) (onRetry : OnRetry) (el : Elem) (url d : String)
    (st : SyncState) (F u : String)
    (hfb : alookup opts.domainMap d = some F) (hFne : ¬ F = "")
    (hnf : ¬ opts.maxRetryCount < (collectorView st.collectors d).retryTimes + 1)
    (hr : onRetry (stringReplace url d F) url
        (bumpCollector (collectorView st.collectors d) url) = RetryResult.str u) :
    ∀ a ∈ (errorHandlerCore opts onRetry el url d st).actions, actionUrl a = u := by
  simp only [errorHandlerCore, bumpCollector, hfb, Option.getD_some]
  simp only [bumpCollector] at hr
  repeat' split
  all_goals try simp_all [actionUrl]
  all_goals omega

theorem core_hook_img (opts : Opts) (onRetry : OnRetry) (el : Elem) (url d : String)
    (st : SyncState) (F u : String)
    (hfb : alookup opts.domainMap d = some F) (hFne : ¬ F = "")
    (hnf : ¬ opts.maxRetryCount < (collectorView st.collectors d).retryTimes + 1)
    (hr : onRetry (stringReplace url d F) url
        (bumpCollector (collectorView st.collectors d) url) = RetryResult.str u)
    (hkind : el.kind = TagKind.img) (hs : el.src.isSome = true) :
    (errorHandlerCore opts onRetry el url d st).actions
      = [Action.setImageSrc el.elemId u] := by
  simp only [errorHandlerCore, bumpCollector, hfb, Option.getD_some]
  simp only [bumpCollector] at hr
  repeat' split
  all_goals try simp_all
  all_goals omega

/-! ### Lifting the core facts through the in-scope guards -/

theorem errorHandler_bump_view (opts : Opts) (onRetry : OnRetry) (el : Elem)
    (url d : String) (st : SyncState)
    (hsrc : el.src = some url) (hcls : classify opts.domainMap url = some d)
    (hig : el.ignored = false)
    (hrel : ¬(el.kind = TagKind.link ∧ el.rel ≠ some "stylesheet")) :
    collectorView (errorHandler opts onRetry (some ⟨some el⟩) st).state.collectors d
      = bumpCollector (collectorView st.collectors d) url := by
  rw [errorHandler_inScope opts onRetry el url d st hsrc hcls hig hrel]
  rw [core_state_collectors]
  exact collectorView_update_ensure st.collectors d _

theorem errorHandler_fail_iff (opts : Opts) (onRetry : OnRetry) (el : Elem)
    (url d : String) (st : SyncState)
    (hsrc : el.src = some url) (hcls : classify opts.domainMap url = some d)
    (hig : el.ignored = false)
    (hrel : ¬(el.kind = TagKind.link ∧ el.rel ≠ some "stylesheet")) :
    (Call.fail (urlPath url) ∈ (errorHandler opts onRetry (some ⟨some el⟩) st).calls
      ↔ opts.maxRetryCount < (collectorView st.collectors d).retryTimes + 1) := by
  rw [errorHandler_inScope opts onRetry el url d st hsrc hcls hig hrel]
  rw [core_fail_mem]
  simp only [collectorView_ensure]

/-! ### Out-of-scope events leave the session unobserved -/

theorem unobserved_noop (st : SyncState) : Unobserved st (mkNoop st) :=
  ⟨fun _ => rfl, rfl, rfl, rfl, rfl⟩

theorem unobserved_noop_ensure (st : SyncState) (d : String) :
    Unobserved st (mkNoop ⟨ensureCollector st.collectors d, st.retryCache⟩) :=
  ⟨fun x => collectorView_ensure st.collectors d x, rfl, rfl, rfl, rfl⟩

theorem errorHandler_noEvent (opts : Opts) (onRetry : OnRetry) (st : SyncState) :
    Unobserved st (errorHandler opts onRetry none st) :=
  unobserved_noop st

theorem errorHandler_noTarget (opts : Opts) (onRetry : OnRetry) (st : SyncState) :
    Unobserved st (errorHandler opts onRetry (some ⟨none⟩) st) :=
  unobserved_noop st

theorem errorHandler_noUrl (opts : Opts) (onRetry : OnRetry) (el : Elem)
    (st : SyncState) (hsrc : el.src = none) :
    Unobserved st (errorHandler opts onRetry (some ⟨some el⟩) st) := by
  simp only [errorHandler, getTargetUrl, hsrc]
  exact unobserved_noop st

theorem errorHandler_unclassified (opts : Opts) (onRetry : OnRetry) (el : Elem)
    (url : String) (st : SyncState) (hsrc : el.src = some url)
    (hcls : classify opts.domainMap url = none) :
    Unobserved st (errorHandler opts onRetry (some ⟨some el⟩) st) := by
  simp only [errorHandler, getTargetUrl, hsrc, hcls]
  exact unobserved_noop st

theorem errorHandler_ignored (opts : Opts) (onRetry : OnRetry) (el : Elem)
    (st : SyncState) (hig : el.ignored = true) :
    Unobserved st (errorHandler opts onRetry (some ⟨some el⟩) st) := by
  rcases hsrc : el.src with _ | url
  · exact errorHandler_noUrl opts onRetry el st hsrc
  · rcases hc : classify opts.domainMap url with _ | d
    · exact errorHandler_unclassified opts onRetry el url st hsrc hc
    · simp only [errorHandler, getTargetUrl, hsrc, hc, hig, if_true]
      exact unobserved_noop_ensure st d

theorem errorHandler_badRel (opts : Opts) (onRetry : OnRetry) (el : Elem)
    (st : SyncState) (hkind : el.kind = TagKind.link)
    (hrel : el.rel ≠ some "stylesheet") :
    Unobserved st (errorHandler opts onRetry (some ⟨some el⟩) st) := by
  rcases hsrc : el.src with _ | url
  · exact errorHandler_noUrl opts onRetry el st hsrc
  · rcases hc : classify opts.domainMap url with _ | d
    · exact errorHandler_unclassified opts onRetry el url st hsrc hc
    · rcases hig : el.ignored with _ | _
      · simp only [errorHandler, getTargetUrl, hsrc, hc, hig]
        rw [if_neg (by simp), if_pos ⟨hkind, hrel⟩]
        exact unobserved_noop_ensure st d
      · exact errorHandler_ignored opts onRetry el st hig

theorem ensureCollector_idem (cs : List (String × Collector)) (d : String) :
    ensureCollector (ensureCollector cs d) d = ensureCollector cs d := by
  have h2 := alookup_ensure_self cs d
  rw [show ensureCollector (ensureCollector cs d) d
      = (if (alookup (ensureCollector cs d) d).isSome then ensureCollector cs d
          else ensureCollector cs d ++ [(d, emptyCollector)]) from rfl]
  rw [h2]
  simp

theorem core_no_success (opts : Opts) (onRetry : OnRetry) (el : Elem)
    (url d : String) (st : SyncState) (p : String) :
    Call.success p ∉ (errorHandlerCore opts onRetry el url d st).calls := by
  simp only [errorHandlerCore, bumpCollector]
  repeat' split
  all_goals simp_all

/-- The failure handler never invokes `onSuccess`. -/
theorem errorHandler_no_success (opts : Opts) (onRetry : OnRetry) (ev : Option Event)
    (st : SyncState) (p : String) :
    Call.success p ∉ (errorHandler opts onRetry ev st).calls := by
  unfold errorHandler
  repeat' split
  all_goals try exact core_no_success _ _ _ _ _ _ _
  all_goals simp [mkNoop]

/-- Reduce `loadHandler` on a classified link target with a supported
styleSheets API to the rule-list dispatch. -/
theorem loadHandler_link (opts : Opts) (onRetry : OnRetry) (dom : DocEnv) (el : Elem)
    (url d : String) (sheets : List StyleSheet) (st : SyncState)
    (hsrc : el.src = some url) (hkind : el.kind = TagKind.link)
    (hcls : classify opts.domainMap url = some d)
    (hsheets : dom.styleSheets = some sheets) :
    loadHandler opts onRetry dom (some ⟨some el⟩) st =
      (match getCssRules ((sheets.filter (fun s => s.href == el.src)).head?) with
       | none => mkNoop ⟨ensureCollector st.collectors d, st.retryCache⟩
       | some 0 => errorHandler opts onRetry (some ⟨some el⟩)
            ⟨ensureCollector st.collectors d, st.retryCache⟩
       | some (_ + 1) =>
          ⟨pushSucceeded ⟨ensureCollector st.collectors d, st.retryCache⟩ (some d) url,
            [Call.success (urlPath url)], [], false⟩) := by
  simp [loadHandler, getTargetUrl, hsrc, hkind, hcls, hsheets]

theorem errorHandler_threw_other (opts : Opts) (onRetry : OnRetry) (el : Elem)
    (url d F : String) (st : SyncState)
    (hsrc : el.src = some url) (hcls : classify opts.domainMap url = some d)
    (hig : el.ignored = false)
    (hrel : ¬(el.kind = TagKind.link ∧ el.rel ≠ some "stylesheet"))
    (hfb : alookup opts.domainMap d = some F) (hFne : ¬ F = "")
    (hnf : ¬ opts.maxRetryCount < (collectorView st.collectors d).retryTimes + 1)
    (hr : onRetry (stringReplace url d F) url
        (bumpCollector (collectorView st.collectors d) url) = RetryResult.other) :
    (errorHandler opts onRetry (some ⟨some el⟩) st).threw = true := by
  rw [errorHandler_inScope opts onRetry el url d st hsrc hcls hig hrel]
  have hnf2 : ¬ opts.maxRetryCount <
      (collectorView (ensureCollector st.collectors d) d).retryTimes + 1 := by
    rw [collectorView_ensure]
    exact hnf
  have hr2 : onRetry (stringReplace url d F) url
      (bumpCollector (collectorView (ensureCollector st.collectors d) d) url)
        = RetryResult.other := by
    rw [collectorView_ensure]
    exact hr
  exact (core_hook_other opts onRetry el url d _ F hfb hFne hnf2 hr2).2

theorem unobserved_to_load_facts (st st1 : SyncState) (r : HResult)
    (hU : Unobserved st1 r)
    (hview : ∀ x, collectorView st1.collectors x = collectorView st.collectors x) :
    (∀ x, (collectorView r.state.collectors x).failed
        = (collectorView st.collectors x).failed)
      ∧ (∀ c ∈ r.calls, isSuccessCall c = true)
      ∧ r.actions = [] ∧ r.threw = false := by
  refine ⟨fun x => ?_, fun c hc => ?_, hU.2.2.2.1, hU.2.2.2.2⟩
  · rw [hU.1 x, hview x]
  · rw [hU.2.2.1] at hc
    exact absurd hc (List.not_mem_nil c)

/-- The success handler on an ignore-marked target: `failed` lists are
never touched, only `onSuccess` can fire, no DOM action, nothing thrown —
but note it performs no ignore-marker check at all. -/
theorem loadHandler_ignored (opts : Opts) (onRetry : OnRetry) (dom : DocEnv) (el : Elem)
    (st : SyncState) (hig : el.ignored = true) :
    (∀ x, (collectorView (loadHandler opts onRetry dom (some ⟨some el⟩) st).state.collectors x).failed
        = (collectorView st.collectors x).failed)
      ∧ (∀ c ∈ (loadHandler opts onRetry dom (some ⟨some el⟩) st).calls, isSuccessCall c = true)
      ∧ (loadHandler opts onRetry dom (some ⟨some el⟩) st).actions = []
      ∧ (loadHandler opts onRetry dom (some ⟨some el⟩) st).threw = false := by
  rcases hsrc : el.src with _ | url
  · simp only [loadHandler, getTargetUrl, hsrc]
    exact ⟨fun x => rfl, by simp [mkNoop], rfl, rfl⟩
  · rcases hc : classify opts.domainMap url with _ | d
    · simp only [loadHandler, getTargetUrl, hsrc, hc]
      repeat' split
      all_goals try exact ⟨fun x => rfl, by simp [isSuccessCall, mkNoop], rfl, rfl⟩
      all_goals exact (unobserved_to_load_facts st st (errorHandler opts onRetry
        (some ⟨some el⟩) st) (errorHandler_unclassified opts onRetry el url st hsrc hc)
        (fun x => rfl))
    · simp only [loadHandler, getTargetUrl, hsrc, hc]
      repeat' split
      all_goals try exact ⟨fun x => congrArg Collector.failed
        (collectorView_ensure st.collectors d x), by simp [isSuccessCall, mkNoop], rfl, rfl⟩
      all_goals try exact ⟨fun x => (collectorView_update_failed
        (ensureCollector st.collectors d) d
        (fun c => { c with succeeded := c.succeeded ++ [url] }) (fun c => rfl) x).trans
        (congrArg Collector.failed (collectorView_ensure st.collectors d x)),
        by simp [isSuccessCall], rfl, rfl⟩
      all_goals exact (unobserved_to_load_facts st ⟨ensureCollector st.collectors d,
        st.retryCache⟩ (errorHandler opts onRetry (some ⟨some el⟩)
        ⟨ensureCollector st.collectors d, st.retryCache⟩) (errorHandler_ignored opts
        onRetry el ⟨ensureCollector st.collectors d, st.retryCache⟩ hig)
        (fun x => collectorView_ensure st.collectors d x))

theorem scanLinkStep_ignored (opts : Opts) (onRetry : OnRetry) (dom : DocEnv)
    (el : Elem) (st : SyncState) (hig : el.ignored = true) :
    Unobserved st (scanLinkStep opts onRetry dom el st) := by
  simp only [scanLinkStep, getTargetUrl]
  repeat' split
  all_goals first
    | exact unobserved_noop st
    | exact unobserved_noop_ensure st _
    | simp_all

theorem scanImageStep_ignored (opts : Opts) (onRetry : OnRetry)
    (el : Elem) (st : SyncState) (hig : el.ignored = true) :
    Unobserved st (scanImageStep opts onRetry el st) := by
  simp only [scanImageStep, getTargetUrl]
  repeat' split
  all_goals first
    | exact unobserved_noop st
    | exact unobserved_noop_ensure st _
    | simp_all

/-- The scan's script branch touches no `failed` list and fires no
callback (it pushes classified script URLs onto `succeeded`, with no
ignore-marker check). -/
theorem scanScriptStep_facts (opts : Opts) (el : Elem) (st : SyncState) :
    (∀ x, (collectorView (scanScriptStep opts el st).state.collectors x).failed
        = (collectorView st.collectors x).failed)
      ∧ (scanScriptStep opts el st).calls = [] := by
  simp only [scanScriptStep, getTargetUrl]
  repeat' split
  all_goals try exact ⟨fun x => rfl, rfl⟩
  all_goals refine ⟨fun x => ?_, rfl⟩
  all_goals simp only [mkNoop, pushSucceeded]
  all_goals rw [collectorView_update_failed]
  all_goals first
    | rw [collectorView_ensure]
    | exact fun c => rfl

/-! ### Claims -/

/-- Claim C9: on a failure notification that is out of scope (no
identifiable target, target without a loadable URL, URL that does not
classify under the Domain Map, ignore-marked target, or a link whose rel
is not "stylesheet"), `errorHandler` returns with every collector's
content unchanged, the retry ledger unchanged, no callback invoked, no
DOM action and nothing thrown. -/
theorem C9_thm (opts : Opts) (onRetry : OnRetry) (ev : Option Event) (st : SyncState)
    (h : ev = none ∨ ev = some ⟨none⟩
      ∨ ∃ el, ev = some ⟨some el⟩
          ∧ (el.src = none
            ∨ (∃ url, el.src = some url ∧ classify opts.domainMap url = none)
            ∨ el.ignored = true
            ∨ (el.kind = TagKind.link ∧ el.rel ≠ some "stylesheet"))) :
    Unobserved st (errorHandler opts onRetry ev st) := by
  rcases h with rfl | rfl | ⟨el, rfl, hcase⟩
  · exact errorHandler_noEvent opts onRetry st
  · exact errorHandler_noTarget opts onRetry st
  · rcases hcase with hsrc | ⟨url, hsrc, hcls⟩ | hig | ⟨hkind, hrel⟩
    · exact errorHandler_noUrl opts onRetry el st hsrc
    · exact errorHandler_unclassified opts onRetry el url st hsrc hcls
    · exact errorHandler_ignored opts onRetry el st hig
    · exact errorHandler_badRel opts onRetry el st hkind hrel

/-- Witness for C9: a concrete `<link rel=icon>` failure event is silently
dropped. -/
theorem C9_witness :
    (demoLinkIcon.kind = TagKind.link ∧ demoLinkIcon.rel ≠ some "stylesheet")
      ∧ Unobserved demoState (errorHandler demoOpts retryIdHook (evOf demoLinkIcon) demoState) :=
  ⟨by decide,
   C9_thm demoOpts retryIdHook (evOf demoLinkIcon) demoState
     (Or.inr (Or.inr ⟨demoLinkIcon, rfl, Or.inr (Or.inr (Or.inr (by decide)))⟩))⟩

/-- Claim C3: for an in-scope classified failure, the failure handler
increments the domain's `retryCount` before comparing with
`maxRetryCount = N`: the failure that brings the count to `N` does not
invoke `onFail`, while the failure that brings it to `N + 1` does. -/
theorem C3_thm (opts : Opts) (onRetry : OnRetry) (el : Elem)
    (url d : String) (st : SyncState)
    (hsrc : el.src = some url) (hcls : classify opts.domainMap url = some d)
    (hig : el.ignored = false)
    (hrel : ¬(el.kind = TagKind.link ∧ el.rel ≠ some "stylesheet")) :
    (collectorView (errorHandler opts onRetry (some ⟨some el⟩) st).state.collectors d).retryTimes
        = (collectorView st.collectors d).retryTimes + 1
      ∧ ((collectorView st.collectors d).retryTimes + 1 = opts.maxRetryCount →
          Call.fail (urlPath url) ∉ (errorHandler opts onRetry (some ⟨some el⟩) st).calls)
      ∧ ((collectorView st.collectors d).retryTimes + 1 = opts.maxRetryCount + 1 →
          Call.fail (urlPath url) ∈ (errorHandler opts onRetry (some ⟨some el⟩) st).calls) := by
  refine ⟨?_, ?_, ?_⟩
  · rw [errorHandler_bump_view opts onRetry el url d st hsrc hcls hig hrel]
    rfl
  · intro hN
    rw [errorHandler_fail_iff opts onRetry el url d st hsrc hcls hig hrel]
    omega
  · intro hN
    rw [errorHandler_fail_iff opts onRetry el url d st hsrc hcls hig hrel]
    omega

/-- Witness for C3 with `maxRetryCount = 1`: the first failure (count
becomes 1) fires no `onFail`; from a state where the count is already 1,
the next failure (count becomes 2) fires `onFail`. -/
theorem C3_witness :
    (collectorView (errorHandler demoOpts retryIdHook (evOf demoScript) demoState).state.collectors
        "a.com").retryTimes = 1
      ∧ Call.fail "/x.js" ∉ (errorHandler demoOpts retryIdHook (evOf demoScript) demoState).calls
      ∧ Call.fail "/x.js" ∈
          (errorHandler demoOpts retryIdHook (evOf demoScript)
            ⟨[("a.com", ⟨1, [], ["http://a.com/x.js"]⟩)], ["e1"]⟩).calls := by
  have h1 := C3_thm demoOpts retryIdHook demoScript "http://a.com/x.js" "a.com" demoState
    (by decide) (by decide) (by decide) (by decide)
  have h2 := C3_thm demoOpts retryIdHook demoScript "http://a.com/x.js" "a.com"
    ⟨[("a.com", ⟨1, [], ["http://a.com/x.js"]⟩)], ["e1"]⟩
    (by decide) (by decide) (by decide) (by decide)
  have hp : urlPath "http://a.com/x.js" = "/x.js" := by decide
  refine ⟨?_, ?_, ?_⟩
  · exact h1.1.trans (by decide)
  · exact hp ▸ h1.2.1 (by decide)
  · exact hp ▸ h2.2.2 (by decide)

/-- Claim C6: when a classified failure makes the count exceed
`maxRetryCount`, `onFail` is invoked with the logical path (URL with
domain stripped), with no rewrite attempted — and this holds on every such
failure, since the count keeps incrementing; when the Domain Map has no
fallback for the domain (falsy entry), no rewrite is attempted either. -/
theorem C6_thm (opts : Opts) (onRetry : OnRetry) (el : Elem)
    (url d : String) (st : SyncState)
    (hsrc : el.src = some url) (hcls : classify opts.domainMap url = some d)
    (hig : el.ignored = false)
    (hrel : ¬(el.kind = TagKind.link ∧ el.rel ≠ some "stylesheet")) :
    ((opts.maxRetryCount < (collectorView st.collectors d).retryTimes + 1 →
        Call.fail (urlPath url) ∈ (errorHandler opts onRetry (some ⟨some el⟩) st).calls
          ∧ (errorHandler opts onRetry (some ⟨some el⟩) st).actions = []
          ∧ (errorHandler opts onRetry (some ⟨some el⟩) st).threw = false)
      ∧ ((alookup opts.domainMap d).getD "" = "" →
          (errorHandler opts onRetry (some ⟨some el⟩) st).actions = [])
      ∧ (collectorView (errorHandler opts onRetry (some ⟨some el⟩) st).state.collectors d).retryTimes
          = (collectorView st.collectors d).retryTimes + 1) := by
  refine ⟨fun hfin => ⟨?_, ?_⟩, fun hfb0 => ?_, ?_⟩
  · exact (errorHandler_fail_iff opts onRetry el url d st hsrc hcls hig hrel).mpr hfin
  · rw [errorHandler_inScope opts onRetry el url d st hsrc hcls hig hrel]
    have hfin2 : opts.maxRetryCount <
        (collectorView (ensureCollector st.collectors d) d).retryTimes + 1 := by
      rw [collectorView_ensure]
      exact hfin
    exact ⟨(core_stop _ _ _ _ _ _ (Or.inr hfin2)).1, (core_stop _ _ _ _ _ _ (Or.inr hfin2)).2.1⟩
  · rw [errorHandler_inScope opts onRetry el url d st hsrc hcls hig hrel]
    exact (core_stop _ _ _ _ _ _ (Or.inl hfb0)).1
  · rw [errorHandler_bump_view opts onRetry el url d st hsrc hcls hig hrel]
    rfl

/-- Witness for C6: with `maxRetryCount = 1`, a no-fallback domain and the
count already at 1, the next failure fires `onFail("/x.js")`, performs no
DOM action and throws nothing. -/
theorem C6_witness :
    Call.fail "/x.js" ∈ (errorHandler demoOptsNoFb retryIdHook (evOf demoScript)
        ⟨[("a.com", ⟨1, [], ["http://a.com/x.js"]⟩)], []⟩).calls
      ∧ (errorHandler demoOptsNoFb retryIdHook (evOf demoScript)
          ⟨[("a.com", ⟨1, [], ["http://a.com/x.js"]⟩)], []⟩).actions = [] := by
  have h := C6_thm demoOptsNoFb retryIdHook demoScript "http://a.com/x.js" "a.com"
    ⟨[("a.com", ⟨1, [], ["http://a.com/x.js"]⟩)], []⟩
    (by decide) (by decide) (by decide) (by decide)
  have hp : urlPath "http://a.com/x.js" = "/x.js" := by decide
  exact ⟨hp ▸ (h.1 (by decide)).1, (h.1 (by decide)).2.1⟩

/-- Claim C7: the return value of `onRetry` is authoritative — `null`
aborts the retry silently (no DOM action, nothing thrown), a non-string
non-null value makes the handler invocation end by throwing (not caught
internally), and a string is the URL every performed DOM action loads. -/
theorem C7_thm (opts : Opts) (onRetry : OnRetry) (el : Elem)
    (url d F : String) (st : SyncState)
    (hsrc : el.src = some url) (hcls : classify opts.domainMap url = some d)
    (hig : el.ignored = false)
    (hrel : ¬(el.kind = TagKind.link ∧ el.rel ≠ some "stylesheet"))
    (hfb : alookup opts.domainMap d = some F) (hFne : ¬ F = "")
    (hnf : ¬ opts.maxRetryCount < (collectorView st.collectors d).retryTimes + 1) :
    ((onRetry (stringReplace url d F) url
          (bumpCollector (collectorView st.collectors d) url) = RetryResult.null →
        (errorHandler opts onRetry (some ⟨some el⟩) st).actions = []
          ∧ (errorHandler opts onRetry (some ⟨some el⟩) st).threw = false)
      ∧ (onRetry (stringReplace url d F) url
            (bumpCollector (collectorView st.collectors d) url) = RetryResult.other →
          (errorHandler opts onRetry (some ⟨some el⟩) st).threw = true
            ∧ (errorHandler opts onRetry (some ⟨some el⟩) st).actions = [])
      ∧ (∀ u, onRetry (stringReplace url d F) url
            (bumpCollector (collectorView st.collectors d) url) = RetryResult.str u →
          ∀ a ∈ (errorHandler opts onRetry (some ⟨some el⟩) st).actions, actionUrl a = u)) := by
  rw [errorHandler_inScope opts onRetry el url d st hsrc hcls hig hrel]
  have hnf2 : ¬ opts.maxRetryCount <
      (collectorView (ensureCollector st.collectors d) d).retryTimes + 1 := by
    rw [collectorView_ensure]
    exact hnf
  refine ⟨fun hr => ?_, fun hr => ?_, fun u hr => ?_⟩
  · have hr2 : onRetry (stringReplace url d F) url
        (bumpCollector (collectorView (ensureCollector st.collectors d) d) url)
          = RetryResult.null := by
      rw [collectorView_ensure]
      exact hr
    exact core_hook_null opts onRetry el url d _ F hfb hFne hnf2 hr2
  · have hr2 : onRetry (stringReplace url d F) url
        (bumpCollector (collectorView (ensureCollector st.collectors d) d) url)
          = RetryResult.other := by
      rw [collectorView_ensure]
      exact hr
    exact ⟨(core_hook_other opts onRetry el url d _ F hfb hFne hnf2 hr2).2,
           (core_hook_other opts onRetry el url d _ F hfb hFne hnf2 hr2).1⟩
  · have hr2 : onRetry (stringReplace url d F) url
        (bumpCollector (collectorView (ensureCollector st.collectors d) d) url)
          = RetryResult.str u := by
      rw [collectorView_ensure]
      exact hr
    exact core_hook_str opts onRetry el url d _ F u hfb hFne hnf2 hr2

/-- Witness for C7: on a first classified script failure, a `null` hook
aborts silently, an `other` hook throws, and the identity hook makes the
performed reload use the returned string. -/
theorem C7_witness :
    ((errorHandler demoOpts retryNullHook (evOf demoScript) demoState).actions = []
        ∧ (errorHandler demoOpts retryNullHook (evOf demoScript) demoState).threw = false)
      ∧ (errorHandler demoOpts retryBadHook (evOf demoScript) demoState).threw = true
      ∧ (∀ a ∈ (errorHandler demoOpts retryIdHook (evOf demoScript) demoState).actions,
          actionUrl a = "http://b.com/x.js") := by
  have hnull := C7_thm demoOpts retryNullHook demoScript "http://a.com/x.js" "a.com" "b.com"
    demoState (by decide) (by decide) (by decide) (by decide) (by decide) (by decide) (by decide)
  have hbad := C7_thm demoOpts retryBadHook demoScript "http://a.com/x.js" "a.com" "b.com"
    demoState (by decide) (by decide) (by decide) (by decide) (by decide) (by decide) (by decide)
  have hstr := C7_thm demoOpts retryIdHook demoScript "http://a.com/x.js" "a.com" "b.com"
    demoState (by decide) (by decide) (by decide) (by decide) (by decide) (by decide) (by decide)
  exact ⟨hnull.1 (by decide), (hbad.2.1 (by decide)).1, hstr.2.2 "http://b.com/x.js" (by decide)⟩

/-- Claim C8: the first classified failure (count still 0) of a
non-ignored resource under a domain with a non-falsy fallback `F` produces
exactly one `onRetry` call, whose candidate is the original URL with the
first occurrence of the domain replaced by `F` and whose collector
snapshot carries `retryCount = 1`. -/
theorem C8_thm (opts : Opts) (onRetry : OnRetry) (el : Elem)
    (url d F : String) (st : SyncState)
    (hsrc : el.src = some url) (hcls : classify opts.domainMap url = some d)
    (hig : el.ignored = false)
    (hrel : ¬(el.kind = TagKind.link ∧ el.rel ≠ some "stylesheet"))
    (hfb : alookup opts.domainMap d = some F) (hFne : ¬ F = "")
    (hk : (collectorView st.collectors d).retryTimes = 0)
    (hN : 1 ≤ opts.maxRetryCount) :
    (errorHandler opts onRetry (some ⟨some el⟩) st).calls
        = [Call.retry (stringReplace url d F) url
            (bumpCollector (collectorView st.collectors d) url)]
      ∧ (bumpCollector (collectorView st.collectors d) url).retryTimes = 1 := by
  rw [errorHandler_inScope opts onRetry el url d st hsrc hcls hig hrel]
  have hnf2 : ¬ opts.maxRetryCount <
      (collectorView (ensureCollector st.collectors d) d).retryTimes + 1 := by
    rw [collectorView_ensure, hk]
    omega
  constructor
  · rw [core_calls_hook opts onRetry el url d _ F hfb hFne hnf2, collectorView_ensure]
  · simp [bumpCollector, hk]

/-- Witness for C8: the spec scenario — a first failure of
`http://a.com/x.js` with fallback `b.com` yields exactly the call
`onRetry("http://b.com/x.js", "http://a.com/x.js", {retryCount: 1, ...})`. -/
theorem C8_witness :
    (errorHandler demoOpts retryIdHook (evOf demoScript) demoState).calls
      = [Call.retry "http://b.com/x.js" "http://a.com/x.js" ⟨1, [], ["http://a.com/x.js"]⟩] := by
  have h := C8_thm demoOpts retryIdHook demoScript "http://a.com/x.js" "a.com" "b.com"
    demoState (by decide) (by decide) (by decide) (by decide) (by decide) (by decide)
    (by decide) (by decide)
  exact h.1.trans (by decide)

/-- Claim C10: when the handler aborts with the configuration error
(`onRetry` returned a non-string, non-null value), the collector mutation
is not rolled back — the count is already incremented and the URL already
appended to `failed` when the error is thrown. -/
theorem C10_thm (opts : Opts) (onRetry : OnRetry) (el : Elem)
    (url d F : String) (st : SyncState)
    (hsrc : el.src = some url) (hcls : classify opts.domainMap url = some d)
    (hig : el.ignored = false)
    (hrel : ¬(el.kind = TagKind.link ∧ el.rel ≠ some "stylesheet"))
    (hfb : alookup opts.domainMap d = some F) (hFne : ¬ F = "")
    (hnf : ¬ opts.maxRetryCount < (collectorView st.collectors d).retryTimes + 1)
    (hr : onRetry (stringReplace url d F) url
        (bumpCollector (collectorView st.collectors d) url) = RetryResult.other) :
    (errorHandler opts onRetry (some ⟨some el⟩) st).threw = true
      ∧ (collectorView (errorHandler opts onRetry (some ⟨some el⟩) st).state.collectors d).retryTimes
          = (collectorView st.collectors d).retryTimes + 1
      ∧ (collectorView (errorHandler opts onRetry (some ⟨some el⟩) st).state.collectors d).failed
          = (collectorView st.collectors d).failed ++ [url] := by
  refine ⟨?_, ?_, ?_⟩
  · exact errorHandler_threw_other opts onRetry el url d F st hsrc hcls hig hrel hfb hFne hnf hr
  · rw [errorHandler_bump_view opts onRetry el url d st hsrc hcls hig hrel]
    rfl
  · rw [errorHandler_bump_view opts onRetry el url d st hsrc hcls hig hrel]
    rfl

/-- Witness for C10: the bad hook on a first script failure leaves
`retryCount = 1` and the URL in `failed` while reporting the throw. -/
theorem C10_witness :
    (errorHandler demoOpts retryBadHook (evOf demoScript) demoState).threw = true
      ∧ (collectorView (errorHandler demoOpts retryBadHook (evOf demoScript)
            demoState).state.collectors "a.com").retryTimes = 1
      ∧ (collectorView (errorHandler demoOpts retryBadHook (evOf demoScript)
            demoState).state.collectors "a.com").failed = ["http://a.com/x.js"] := by
  have h := C10_thm demoOpts retryBadHook demoScript "http://a.com/x.js" "a.com" "b.com"
    demoState (by decide) (by decide) (by decide) (by decide) (by decide) (by decide)
    (by decide) (by decide)
  exact ⟨h.1, h.2.1.trans (by decide), h.2.2.trans (by decide)⟩

/-- Claim C5: on a load-success notification for a classified
stylesheet-link whose matching in-memory stylesheet has an inaccessible
rule list, the handler does nothing; with an accessible empty rule list,
the event goes through the failure path (count incremented, URL appended
to `failed`, `succeeded` untouched, no `onSuccess`); with a non-empty rule
list, the URL is appended to `succeeded` and `onSuccess` fires. -/
theorem C5_thm (opts : Opts) (onRetry : OnRetry) (dom : DocEnv) (el : Elem)
    (url d : String) (sheets : List StyleSheet) (sheet : StyleSheet) (st : SyncState)
    (hsrc : el.src = some url) (hkind : el.kind = TagKind.link)
    (hcls : classify opts.domainMap url = some d)
    (hsheets : dom.styleSheets = some sheets)
    (hfound : (sheets.filter (fun s => s.href == el.src)).head? = some sheet) :
    ((sheet.rules = none →
        Unobserved st (loadHandler opts onRetry dom (some ⟨some el⟩) st))
      ∧ (sheet.rules = some 0 → el.ignored = false → el.rel = some "stylesheet" →
          (collectorView (loadHandler opts onRetry dom (some ⟨some el⟩) st).state.collectors d).retryTimes
              = (collectorView st.collectors d).retryTimes + 1
            ∧ (collectorView (loadHandler opts onRetry dom (some ⟨some el⟩) st).state.collectors d).failed
              = (collectorView st.collectors d).failed ++ [url]
            ∧ (collectorView (loadHandler opts onRetry dom (some ⟨some el⟩) st).state.collectors d).succeeded
              = (collectorView st.collectors d).succeeded
            ∧ ∀ p, Call.success p ∉ (loadHandler opts onRetry dom (some ⟨some el⟩) st).calls)
      ∧ (∀ n, sheet.rules = some (n + 1) →
          (collectorView (loadHandler opts onRetry dom (some ⟨some el⟩) st).state.collectors d).succeeded
              = (collectorView st.collectors d).succeeded ++ [url]
            ∧ (collectorView (loadHandler opts onRetry dom (some ⟨some el⟩) st).state.collectors d).failed
              = (collectorView st.collectors d).failed
            ∧ (loadHandler opts onRetry dom (some ⟨some el⟩) st).calls
              = [Call.success (urlPath url)])) := by
  rw [loadHandler_link opts onRetry dom el url d sheets st hsrc hkind hcls hsheets, hfound]
  refine ⟨fun hrules => ?_, fun hrules hig hrel => ?_, fun n hrules => ?_⟩
  · simp only [getCssRules, hrules, Option.some_bind]
    exact unobserved_noop_ensure st d
  · simp only [getCssRules, hrules, Option.some_bind]
    have hrel2 : ¬(el.kind = TagKind.link ∧ el.rel ≠ some "stylesheet") :=
      fun h => h.2 hrel
    have hb := errorHandler_bump_view opts onRetry el url d
      ⟨ensureCollector st.collectors d, st.retryCache⟩ hsrc hcls hig hrel2
    simp only [collectorView_ensure] at hb
    refine ⟨?_, ?_, ?_, fun p => errorHandler_no_success opts onRetry _ _ p⟩
    · rw [hb]
      rfl
    · rw [hb]
      rfl
    · rw [hb]
      rfl
  · simp only [getCssRules, hrules, Option.some_bind]
    refine ⟨?_, ?_, by trivial⟩
    · show (collectorView (updateCollector (ensureCollector st.collectors d) d _) d).succeeded = _
      rw [collectorView_update_ensure]
    · show (collectorView (updateCollector (ensureCollector st.collectors d) d _) d).failed = _
      rw [collectorView_update_ensure]

/-- Witness for C5: the same classified stylesheet link under three
documents — inaccessible rules leave everything unobserved, an empty rule
list routes through the failure path, a 3-rule sheet records success. -/
theorem C5_witness :
    Unobserved demoState (loadHandler demoOpts retryNullHook demoDocNullRules (evOf demoLink) demoState)
      ∧ (collectorView (loadHandler demoOpts retryNullHook demoDocEmptyRules (evOf demoLink)
            demoState).state.collectors "a.com").retryTimes = 1
      ∧ (collectorView (loadHandler demoOpts retryNullHook demoDocEmptyRules (evOf demoLink)
            demoState).state.collectors "a.com").failed = ["http://a.com/s.css"]
      ∧ (∀ p, Call.success p ∉ (loadHandler demoOpts retryNullHook demoDocEmptyRules (evOf demoLink)
            demoState).calls)
      ∧ (collectorView (loadHandler demoOpts retryNullHook demoDocWithRules (evOf demoLink)
            demoState).state.collectors "a.com").succeeded = ["http://a.com/s.css"]
      ∧ (loadHandler demoOpts retryNullHook demoDocWithRules (evOf demoLink) demoState).calls
          = [Call.success "/s.css"] := by
  have hnull := C5_thm demoOpts retryNullHook demoDocNullRules demoLink "http://a.com/s.css"
    "a.com" [⟨some "http://a.com/s.css", none⟩] ⟨some "http://a.com/s.css", none⟩ demoState
    (by decide) (by decide) (by decide) (by decide) (by decide)
  have hempty := C5_thm demoOpts retryNullHook demoDocEmptyRules demoLink "http://a.com/s.css"
    "a.com" [⟨some "http://a.com/s.css", some 0⟩] ⟨some "http://a.com/s.css", some 0⟩ demoState
    (by decide) (by decide) (by decide) (by decide) (by decide)
  have hfull := C5_thm demoOpts retryNullHook demoDocWithRules demoLink "http://a.com/s.css"
    "a.com" [⟨some "http://a.com/s.css", some 3⟩] ⟨some "http://a.com/s.css", some 3⟩ demoState
    (by decide) (by decide) (by decide) (by decide) (by decide)
  have he := hempty.2.1 (by decide) (by decide) (by decide)
  have hf := hfull.2.2 2 (by decide)
  have hp : urlPath "http://a.com/s.css" = "/s.css" := by decide
  exact ⟨hnull.1 (by decide), he.1.trans (by decide), he.2.1.trans (by decide), he.2.2.2,
    hf.1.trans (by decide), hf.2.2.trans (by rw [hp])⟩

/-- Counterexample to claim C1 as stated: a load-success notification for
a script from `c.com`, a domain that is not a key of the Domain Map, still
invokes the `onSuccess` callback — the success handler performs no
classification short-circuit. -/
theorem C1_cex :
    classify demoOpts.domainMap "http://c.com/x.js" = none
      ∧ (loadHandler demoOpts retryIdHook demoDocNoSheets (evOf demoScriptOther)
          demoState).calls = [Call.success "/x.js"]
      ∧ ¬ (loadHandler demoOpts retryIdHook demoDocNoSheets (evOf demoScriptOther)
          demoState).calls = [] := by
  decide

/-- Claim C1 amended: for an unclassified URL the failure handler is a
complete no-op and the success handler creates no collector, performs no
DOM action, throws nothing and never invokes `onRetry` or `onFail` — but
the success handler does not short-circuit: it can still invoke
`onSuccess` (its calls are success calls only). -/
theorem C1_thm (opts : Opts) (onRetry : OnRetry) (dom : DocEnv) (el : Elem)
    (url : String) (st : SyncState) (hsrc : el.src = some url)
    (hcls : classify opts.domainMap url = none) :
    errorHandler opts onRetry (some ⟨some el⟩) st = mkNoop st
      ∧ (loadHandler opts onRetry dom (some ⟨some el⟩) st).state = st
      ∧ (loadHandler opts onRetry dom (some ⟨some el⟩) st).actions = []
      ∧ (loadHandler opts onRetry dom (some ⟨some el⟩) st).threw = false
      ∧ (∀ c ∈ (loadHandler opts onRetry dom (some ⟨some el⟩) st).calls,
          isSuccessCall c = true) := by
  have hE : errorHandler opts onRetry (some ⟨some el⟩) st = mkNoop st := by
    simp [errorHandler, getTargetUrl, hsrc, hcls]
  refine ⟨hE, ?_, ?_, ?_, ?_⟩
  all_goals simp only [loadHandler, getTargetUrl, hsrc, hcls]
  all_goals repeat' split
  all_goals simp_all [mkNoop, pushSucceeded, isSuccessCall]

/-- Witness for C1 (amended): the failure handler drops the `c.com` script
error entirely, and the success handler leaves the state untouched while
emitting only a success call. -/
theorem C1_witness :
    errorHandler demoOpts retryIdHook (evOf demoScriptOther) demoState = mkNoop demoState
      ∧ (loadHandler demoOpts retryIdHook demoDocNoSheets (evOf demoScriptOther)
          demoState).state = demoState
      ∧ (∀ c ∈ (loadHandler demoOpts retryIdHook demoDocNoSheets (evOf demoScriptOther)
          demoState).calls, isSuccessCall c = true) := by
  have h := C1_thm demoOpts retryIdHook demoDocNoSheets demoScriptOther "http://c.com/x.js"
    demoState (by decide) (by decide)
  exact ⟨h.1, h.2.1, h.2.2.2.2⟩

/-- Counterexample to claim C2 as stated: a load-success notification for
an ignore-marked classified script appends its URL to the collector's
`succeeded` list and invokes `onSuccess` — the success handler never
checks the ignore marker. -/
theorem C2_cex :
    demoScriptIgnored.ignored = true
      ∧ (collectorView (loadHandler demoOpts retryIdHook demoDocNoSheets
            (evOf demoScriptIgnored) demoState).state.collectors "a.com").succeeded
          = ["http://a.com/x.js"]
      ∧ (loadHandler demoOpts retryIdHook demoDocNoSheets (evOf demoScriptIgnored)
          demoState).calls = [Call.success "/x.js"] := by
  decide

/-- Claim C2 amended: an ignore-marked element never reaches any
collector's `failed` list and never triggers `onRetry` or `onFail`: the
failure handler is observably a no-op, the scan's link and image branches
skip it, and the success handler and the scan's script branch touch no
`failed` list, perform no DOM action and can only fire `onSuccess`
(which, together with the `succeeded` push, they do not suppress). -/
theorem C2_thm (opts : Opts) (onRetry : OnRetry) (dom : DocEnv) (el : Elem)
    (st : SyncState) (hig : el.ignored = true) :
    Unobserved st (errorHandler opts onRetry (some ⟨some el⟩) st)
      ∧ (∀ x, (collectorView (loadHandler opts onRetry dom (some ⟨some el⟩) st).state.collectors x).failed
          = (collectorView st.collectors x).failed)
      ∧ (∀ c ∈ (loadHandler opts onRetry dom (some ⟨some el⟩) st).calls,
          isSuccessCall c = true)
      ∧ (loadHandler opts onRetry dom (some ⟨some el⟩) st).actions = []
      ∧ (loadHandler opts onRetry dom (some ⟨some el⟩) st).threw = false
      ∧ Unobserved st (scanLinkStep opts onRetry dom el st)
      ∧ Unobserved st (scanImageStep opts onRetry el st)
      ∧ (∀ x, (collectorView (scanScriptStep opts el st).state.collectors x).failed
          = (collectorView st.collectors x).failed)
      ∧ (scanScriptStep opts el st).calls = [] := by
  have hL := loadHandler_ignored opts onRetry dom el st hig
  exact ⟨errorHandler_ignored opts onRetry el st hig, hL.1, hL.2.1, hL.2.2.1, hL.2.2.2,
    scanLinkStep_ignored opts onRetry dom el st hig,
    scanImageStep_ignored opts onRetry el st hig,
    (scanScriptStep_facts opts el st).1, (scanScriptStep_facts opts el st).2⟩

/-- Witness for C2 (amended): the ignore-marked classified script — its
failure event is unobserved, its success event keeps every `failed` list
unchanged with success-only calls, and the scan's link and image branches
skip it. -/
theorem C2_witness :
    Unobserved demoState (errorHandler demoOpts retryIdHook (evOf demoScriptIgnored) demoState)
      ∧ (∀ c ∈ (loadHandler demoOpts retryIdHook demoDocNoSheets (evOf demoScriptIgnored)
          demoState).calls, isSuccessCall c = true)
      ∧ Unobserved demoState (scanLinkStep demoOpts retryIdHook demoDocNoSheets
          demoScriptIgnored demoState)
      ∧ Unobserved demoState (scanImageStep demoOpts retryIdHook demoScriptIgnored demoState) := by
  have h := C2_thm demoOpts retryIdHook demoDocNoSheets demoScriptIgnored demoState (by decide)
  exact ⟨h.1, h.2.2.1, h.2.2.2.2.2.1, h.2.2.2.2.2.2.1⟩

/-! ### The retry ledger enforces at-most-one replace-element reload -/

theorem loadNextCount_append (id : String) (xs ys : List Action) :
    loadNextCount id (xs ++ ys) = loadNextCount id xs + loadNextCount id ys := by
  induction xs with
  | nil => simp [loadNextCount]
  | cons a as ih => cases a <;> simp [loadNextCount, ih] <;> omega

theorem core_ledger (opts : Opts) (onRetry : OnRetry) (el : Elem)
    (url d : String) (cs : List (String × Collector)) (cache : List String) (id : String) :
    (id ∈ cache →
        id ∈ (errorHandlerCore opts onRetry el url d ⟨cs, cache⟩).state.retryCache
          ∧ loadNextCount id (errorHandlerCore opts onRetry el url d ⟨cs, cache⟩).actions = 0)
      ∧ loadNextCount id (errorHandlerCore opts onRetry el url d ⟨cs, cache⟩).actions ≤ 1
      ∧ (1 ≤ loadNextCount id (errorHandlerCore opts onRetry el url d ⟨cs, cache⟩).actions →
          id ∉ cache
            ∧ id ∈ (errorHandlerCore opts onRetry el url d ⟨cs, cache⟩).state.retryCache) := by
  simp only [errorHandlerCore, bumpCollector]
  repeat' split
  all_goals simp_all [loadNextCount]
  all_goals repeat' split
  all_goals simp_all [List.mem_append]

theorem errorHandler_ledger (opts : Opts) (onRetry : OnRetry) (ev : Option Event)
    (st : SyncState) (id : String) :
    (id ∈ st.retryCache →
        id ∈ (errorHandler opts onRetry ev st).state.retryCache
          ∧ loadNextCount id (errorHandler opts onRetry ev st).actions = 0)
      ∧ loadNextCount id (errorHandler opts onRetry ev st).actions ≤ 1
      ∧ (1 ≤ loadNextCount id (errorHandler opts onRetry ev st).actions →
          id ∉ st.retryCache ∧ id ∈ (errorHandler opts onRetry ev st).state.retryCache) := by
  simp only [errorHandler]
  repeat' split
  all_goals try exact ⟨fun h => ⟨h, rfl⟩, by simp [mkNoop, loadNextCount],
    by simp [mkNoop, loadNextCount]⟩
  all_goals exact core_ledger _ _ _ _ _ _ st.retryCache id

theorem runErrors_count_zero (opts : Opts) (onRetry : OnRetry)
    (evs : List (Option Event)) (id : String) :
    ∀ st, id ∈ st.retryCache →
      id ∈ (runErrors opts onRetry evs st).state.retryCache
        ∧ loadNextCount id (runErrors opts onRetry evs st).actions = 0 := by
  induction evs with
  | nil => exact fun st h => ⟨h, rfl⟩
  | cons e es ih =>
    intro st h
    simp only [runErrors, loadNextCount_append]
    have h1 := (errorHandler_ledger opts onRetry e st id).1 h
    have h2 := ih (errorHandler opts onRetry e st).state h1.1
    exact ⟨h2.1, by rw [h1.2, h2.2]⟩

theorem runErrors_ledger (opts : Opts) (onRetry : OnRetry)
    (evs : List (Option Event)) (id : String) :
    ∀ st, id ∉ st.retryCache →
      loadNextCount id (runErrors opts onRetry evs st).actions ≤ 1 := by
  induction evs with
  | nil => intro st _; simp [runErrors, mkNoop, loadNextCount]
  | cons e es ih =>
    intro st h
    simp only [runErrors, loadNextCount_append]
    by_cases hm : id ∈ (errorHandler opts onRetry e st).state.retryCache
    · have hz := (runErrors_count_zero opts onRetry es id _ hm).2
      have h1 := (errorHandler_ledger opts onRetry e st id).2.1
      omega
    · have hz : loadNextCount id (errorHandler opts onRetry e st).actions = 0 := by
        by_contra hnz
        exact hm ((errorHandler_ledger opts onRetry e st id).2.2
          (Nat.one_le_iff_ne_zero.mpr hnz)).2
      have h2 := ih (errorHandler opts onRetry e st).state hm
      omega

/-- Claim C4: across any sequence of failure notifications, a
script/stylesheet element (by ledger identifier) is given a
replace-element reload (`loadNextScript` / `loadNextLink`) at most once —
the Retry Ledger enforces it; image elements are exempt: an in-scope,
non-final image failure whose hook returns a string is reloaded even when
the element is already in the ledger. -/
theorem C4_thm (opts : Opts) (onRetry : OnRetry) :
    (∀ evs st id, id ∉ st.retryCache →
        loadNextCount id (runErrors opts onRetry evs st).actions ≤ 1)
      ∧ (∀ el url d F u st,
          el.kind = TagKind.img → el.src = some url →
          classify opts.domainMap url = some d → el.ignored = false →
          alookup opts.domainMap d = some F → ¬ F = "" →
          ¬ opts.maxRetryCount < (collectorView st.collectors d).retryTimes + 1 →
          onRetry (stringReplace url d F) url
              (bumpCollector (collectorView st.collectors d) url) = RetryResult.str u →
          el.elemId ∈ st.retryCache →
          (errorHandler opts onRetry (some ⟨some el⟩) st).actions
            = [Action.setImageSrc el.elemId u]) := by
  constructor
  · exact fun evs st id h => runErrors_ledger opts onRetry evs id st h
  · intro el url d F u st hkind hsrc hcls hig hfb hFne hnf hr hmem
    have hrel : ¬(el.kind = TagKind.link ∧ el.rel ≠ some "stylesheet") := by
      rw [hkind]
      rintro ⟨hl, _⟩
      cases hl
    rw [errorHandler_inScope opts onRetry el url d st hsrc hcls hig hrel]
    have hnf2 : ¬ opts.maxRetryCount <
        (collectorView (ensureCollector st.collectors d) d).retryTimes + 1 := by
      rw [collectorView_ensure]
      exact hnf
    have hr2 : onRetry (stringReplace url d F) url
        (bumpCollector (collectorView (ensureCollector st.collectors d) d) url)
          = RetryResult.str u := by
      rw [collectorView_ensure]
      exact hr
    refine core_hook_img opts onRetry el url d _ F u hfb hFne hnf2 hr2 hkind ?_
    rw [hsrc]
    rfl

/-- Witness for C4: two failures of the same script element produce at
most one reload across the run, and an already-ledgered image element is
still reloaded with the hook's URL. -/
theorem C4_witness :
    loadNextCount "e1" (runErrors demoOpts retryIdHook
        [evOf demoScript, evOf demoScript] demoState).actions ≤ 1
      ∧ (errorHandler demoOpts retryIdHook (evOf demoImg)
          ⟨[], ["e4"]⟩).actions = [Action.setImageSrc "e4" "http://b.com/i.png"] := by
  have h := C4_thm demoOpts retryIdHook
  refine ⟨h.1 [evOf demoScript, evOf demoScript] demoState "e1" (by decide), ?_⟩
  exact h.2 demoImg "http://a.com/i.png" "a.com" "b.com" "http://b.com/i.png" ⟨[], ["e4"]⟩
    (by decide) (by decide) (by decide) (by decide) (by decide) (by decide) (by decide)
    (by decide) (by decide)

end AssetsRetry
